import Mathlib

/-!
Verification of the callback-directive contract of `bokeh/models/callbacks.py`:
the three directive variants `OpenURL`, `CustomJS` and `SetValue`, the two
validation checks declared on `SetValue`, and the construction defaults of the
other two variants.  The declarative property framework (`HasProps`, property
descriptors, the `@error` validation runner, `Required` construction semantics
and runtime dispatch) lives outside the given sources and is modelled from the
specification where a claim needs it; each such definition is marked in its
doc comment.
-/

namespace Bokeh

/-- Candidate property values carried by a `SetValue` directive (the source
declares `value = Required(Any)`; a small concrete universe of values keeps
every definition executable). -/
inductive Value where
  | int (n : Int)
  | str (s : String)
  | bool (b : Bool)
deriving DecidableEq, Repr

/-- Modelled from the spec: the value-validity capability of a property,
`isValid(value) -> bool` (section 6), used by the source as
`descriptor.property.is_valid(value)`. -/
structure Property where
  is_valid : Value → Bool

/-- Modelled from the spec: a property descriptor returned by schema lookup;
the source reaches the validator through its `property` field. -/
structure PropertyDescriptor where
  property : Property

/-- Modelled from the spec: a property-holding target object (`HasProps`),
with an identity for error reporting (section 6), a property schema
(attribute name to descriptor, section 9) and the current property values. -/
structure HasProps where
  ident : String
  schema : List (String × PropertyDescriptor)
  values : List (String × Value)

/-- Modelled from the spec: the schema-lookup capability
`lookup(attributeName) -> PropertyDescriptor | not-found` (section 6).  The
framework call `obj.lookup(attr, raises=False)` yields this option directly;
with `raises=True` (the default) a not-found result is raised instead, which
call sites model by mapping `none` to an `Except.error`. -/
def HasProps.lookup (o : HasProps) (attr : String) : Option PropertyDescriptor :=
  (o.schema.find? (fun p => p.1 == attr)).map (fun p => p.2)

/-- Modelled from the spec: assignment of a value to a named property via the
schema's setter, `set(name, value)` (section 9). -/
def HasProps.set (o : HasProps) (attr : String) (v : Value) : HasProps :=
  ⟨o.ident, o.schema, (attr, v) :: o.values.filter (fun p => !(p.1 == attr))⟩

/-- Current value stored for a named property of a holder. -/
def HasProps.getValue (o : HasProps) (attr : String) : Option Value :=
  (o.values.find? (fun p => p.1 == attr)).map (fun p => p.2)

/-- Validation errors emitted by the `@error`-decorated checks, by kind with
the payloads the source interpolates into its message strings:
`NOT_A_PROPERTY_OF` carries the attribute and the target identity,
`INVALID_PROPERTY_VALUE` carries the value, the target identity and the
attribute. -/
inductive ValidationError where
  | NOT_A_PROPERTY_OF (attr : String) (obj : String)
  | INVALID_PROPERTY_VALUE (value : Value) (obj : String) (attr : String)
deriving DecidableEq, Repr

/-- A raised Python exception, as propagated by an unsuppressed failing
lookup (`AttributeError` on the target identity and attribute). -/
inductive PyError where
  | attributeError (obj : String) (attr : String)
deriving DecidableEq, Repr

/-- The `SetValue` directive: target object, attribute name and candidate
value (all `Required` in the source). -/
structure SetValue where
  obj : HasProps
  attr : String
  value : Value

/-- First validation check of `SetValue` (source lines 174-179): if
`self.obj.lookup(self.attr, raises=False)` is truthy return `None`, else
return the `NOT_A_PROPERTY_OF` error message naming the attribute and the
target. -/
def SetValue.check_if_an_attribute_is_a_property_of_a_model (d : SetValue) :
    Option ValidationError :=
  if (HasProps.lookup d.obj d.attr).isSome then
    none
  else
    some (ValidationError.NOT_A_PROPERTY_OF d.attr d.obj.ident)

/-- Second validation check of `SetValue` (source lines 181-188):
`descriptor = self.obj.lookup(self.attr)` resolves with `raises=True`, so a
not-found lookup propagates as an `AttributeError` rather than returning a
message; otherwise the check tests `descriptor.property.is_valid(self.value)`
and returns `None` or the `INVALID_PROPERTY_VALUE` message. -/
def SetValue.check_if_provided_a_valid_value (d : SetValue) :
    Except PyError (Option ValidationError) :=
  match HasProps.lookup d.obj d.attr with
  | none => Except.error (PyError.attributeError d.obj.ident d.attr)
  | some descriptor =>
      if descriptor.property.is_valid d.value then
        Except.ok none
      else
        Except.ok (some (ValidationError.INVALID_PROPERTY_VALUE d.value d.obj.ident d.attr))

/-- Modelled from the spec: the external graph validator of section 4.3
(the `@error` runner is not among the given sources).  Step 1 resolves the
attribute and emits `NotAPropertyOf` when it does not exist; step 2 runs only
if the attribute resolved and emits `InvalidPropertyValue` when the value
fails the validator; errors are collected into a list. -/
def SetValue.validate (d : SetValue) : List ValidationError :=
  match d.check_if_an_attribute_is_a_property_of_a_model with
  | some e => [e]
  | none =>
      match d.check_if_provided_a_valid_value with
      | Except.ok none => []
      | Except.ok (some e) => [e]
      | Except.error _ => []

/-- Modelled from the spec: runtime dispatch of a validated directive assigns
`value` to `target.attribute` via the schema's setter (section 4.3). -/
def SetValue.dispatch (d : SetValue) : HasProps :=
  HasProps.set d.obj d.attr d.value

/-- State-passing form of running the two checks: the source method bodies
only read `self.obj`, `self.attr` and `self.value`, so the directive state is
returned unchanged alongside the two results. -/
def SetValue.runChecks (d : SetValue) :
    (Option ValidationError × Except PyError (Option ValidationError)) × SetValue :=
  ((d.check_if_an_attribute_is_a_property_of_a_model,
    d.check_if_provided_a_valid_value), d)

/-- State-passing form of one validation run: the collected errors together
with the post-run directive state. -/
def SetValue.runValidation (d : SetValue) : List ValidationError × SetValue :=
  (d.validate, (d.runChecks).2)

/-- The `OpenURL` directive (source lines 70-88): a template URL defaulting
to the string given in the source and a tab-target flag defaulting to
false. -/
structure OpenURL where
  url : String := "http://"
  same_tab : Bool := false
deriving DecidableEq, Repr

/-- Modelled from the spec: constructing an `OpenURL` with no arguments fills
each field with its declared default. -/
def OpenURL.construct_noargs : OpenURL := {}

/-- A reference to an externally owned object, the value side of the
`Dict(String, AnyRef)` declaration of `CustomJS.args`. -/
structure AnyRef where
  ref : Nat
deriving DecidableEq, Repr

/-- The `module` property of `CustomJS` (source lines 150-153), declared
`Either(Auto, Bool)` with default auto. -/
inductive ModuleMode where
  | auto
  | bool (b : Bool)
deriving DecidableEq, Repr

/-- Errors raised at construction time. -/
inductive ConstructionError where
  | EmptyCode
deriving DecidableEq, Repr

/-- The `CustomJS` directive (source lines 97-153): a name-to-reference
argument mapping defaulting to the empty dict, a required code payload, and
the module mode defaulting to auto. -/
structure CustomJS where
  args : List (String × AnyRef) := []
  code : String
  module : ModuleMode := ModuleMode.auto
deriving DecidableEq, Repr

/-- Modelled from the spec: construction of a `CustomJS`.  The `Required`
property machinery is not among the given sources; per the invariant of
section 3 an empty or missing code payload is the construction-time error
`EmptyCode`, and unspecified args or module take the declared defaults. -/
def CustomJS.construct_from (code : Option String) (args : Option (List (String × AnyRef)))
    (m : Option ModuleMode) : Except ConstructionError CustomJS :=
  match code with
  | none => Except.error ConstructionError.EmptyCode
  | some c =>
      if c = "" then Except.error ConstructionError.EmptyCode
      else Except.ok ⟨args.getD [], c, m.getD ModuleMode.auto⟩

/-- The callback-directive variants of the module. -/
inductive Callback where
  | openURL (c : OpenURL)
  | customJS (c : CustomJS)
  | setValue (d : SetValue)

/-- Modelled from the spec: the graph-wide validation pass collects the
results of each directive's declared checks.  In the source `SetValue`
declares two `@error` checks while `OpenURL` and `CustomJS` declare none. -/
def Callback.validate : Callback → List ValidationError
  | Callback.openURL _ => []
  | Callback.customJS _ => []
  | Callback.setValue d => d.validate

/-- An example target exposing an integer property and a string property,
mirroring the scenario of section 8 of the spec. -/
def intProperty : Property :=
  ⟨fun v => match v with | Value.int _ => true | _ => false⟩

/-- Validator accepting exactly string values. -/
def strProperty : Property :=
  ⟨fun v => match v with | Value.str _ => true | _ => false⟩

/-- Example property holder with schema x : int, y : string. -/
def exampleObj : HasProps :=
  ⟨"obj1", [("x", ⟨intProperty⟩), ("y", ⟨strProperty⟩)],
   [("x", Value.int 0), ("y", Value.str "")]⟩

/-- C1: a `SetValue` whose attribute is not found on the target's schema
validates to exactly one `NotAPropertyOf` error carrying the attribute and
target identity, and no `InvalidPropertyValue` error. -/
theorem setvalue_validate_not_a_property (d : SetValue)
    (h : HasProps.lookup d.obj d.attr = none) :
    d.validate = [ValidationError.NOT_A_PROPERTY_OF d.attr d.obj.ident] := by
  simp [SetValue.validate, SetValue.check_if_an_attribute_is_a_property_of_a_model, h]

/-- Witness for C1: the example target has no property named z. -/
theorem setvalue_validate_not_a_property_witness :
    HasProps.lookup exampleObj "z" = none ∧
    SetValue.validate ⟨exampleObj, "z", Value.int 5⟩ =
      [ValidationError.NOT_A_PROPERTY_OF ("z") ("obj1")] :=
  ⟨rfl, setvalue_validate_not_a_property ⟨exampleObj, "z", Value.int 5⟩ rfl⟩

/-- C2: a `SetValue` whose attribute resolves to a descriptor but whose value
fails that descriptor's validity check validates to exactly one
`InvalidPropertyValue` error carrying the value, target identity and
attribute, and no `NotAPropertyOf` error. -/
theorem setvalue_validate_invalid_value (d : SetValue) (desc : PropertyDescriptor)
    (h1 : HasProps.lookup d.obj d.attr = some desc)
    (h2 : desc.property.is_valid d.value = false) :
    d.validate = [ValidationError.INVALID_PROPERTY_VALUE d.value d.obj.ident d.attr] := by
  simp [SetValue.validate, SetValue.check_if_an_attribute_is_a_property_of_a_model,
        SetValue.check_if_provided_a_valid_value, h1, h2]

/-- Witness for C2: a string value offered for the integer property x. -/
theorem setvalue_validate_invalid_value_witness :
    HasProps.lookup exampleObj "x" = some ⟨intProperty⟩ ∧
    Property.is_valid intProperty (Value.str "bad") = false ∧
    SetValue.validate ⟨exampleObj, "x", Value.str "bad"⟩ =
      [ValidationError.INVALID_PROPERTY_VALUE (Value.str "bad") ("obj1") ("x")] :=
  ⟨rfl, rfl,
   setvalue_validate_invalid_value ⟨exampleObj, "x", Value.str "bad"⟩ ⟨intProperty⟩ rfl rfl⟩

/-- C3: a `SetValue` whose attribute resolves and whose value passes the
property's validity check validates with zero errors, and dispatch assigns
the value to the target's attribute. -/
theorem setvalue_valid_validates_clean_and_dispatches (d : SetValue)
    (desc : PropertyDescriptor)
    (h1 : HasProps.lookup d.obj d.attr = some desc)
    (h2 : desc.property.is_valid d.value = true) :
    d.validate = [] ∧ HasProps.getValue d.dispatch d.attr = some d.value := by
  constructor
  · simp [SetValue.validate, SetValue.check_if_an_attribute_is_a_property_of_a_model,
          SetValue.check_if_provided_a_valid_value, h1, h2]
  · unfold SetValue.dispatch HasProps.getValue HasProps.set
    rw [List.find?_cons_of_pos _ (by simp)]
    rfl

/-- Witness for C3: setting the integer property x to 5 on the example
target. -/
theorem setvalue_valid_validates_clean_and_dispatches_witness :
    HasProps.lookup exampleObj "x" = some ⟨intProperty⟩ ∧
    Property.is_valid intProperty (Value.int 5) = true ∧
    (SetValue.validate ⟨exampleObj, "x", Value.int 5⟩ = [] ∧
     HasProps.getValue (SetValue.dispatch ⟨exampleObj, "x", Value.int 5⟩) ("x") =
       some (Value.int 5)) :=
  ⟨rfl, rfl,
   setvalue_valid_validates_clean_and_dispatches ⟨exampleObj, "x", Value.int 5⟩
     ⟨intProperty⟩ rfl rfl⟩

/-- C5: the second check is not total.  When the attribute is not found it
propagates the unsuppressed lookup failure as a raised `AttributeError`
rather than returning a message or `None`; when the attribute resolves it
always returns normally. -/
theorem setvalue_check_value_totality (d : SetValue) :
    ((HasProps.lookup d.obj d.attr).isSome = false →
      d.check_if_provided_a_valid_value =
        Except.error (PyError.attributeError d.obj.ident d.attr)) ∧
    ((HasProps.lookup d.obj d.attr).isSome = true →
      ∃ r, d.check_if_provided_a_valid_value = Except.ok r) := by
  constructor
  · intro h
    cases ho : HasProps.lookup d.obj d.attr with
    | none => simp [SetValue.check_if_provided_a_valid_value, ho]
    | some desc => rw [ho] at h; simp at h
  · intro h
    rw [Option.isSome_iff_exists] at h
    obtain ⟨desc, hd⟩ := h
    simp only [SetValue.check_if_provided_a_valid_value, hd]
    by_cases hv : desc.property.is_valid d.value = true
    · exact ⟨none, by simp [hv]⟩
    · exact ⟨some (ValidationError.INVALID_PROPERTY_VALUE d.value d.obj.ident d.attr),
        by simp [hv]⟩

/-- Witness for C5: the check raises on the missing attribute z and returns
normally on the existing attribute x. -/
theorem setvalue_check_value_totality_witness :
    ((HasProps.lookup exampleObj "z").isSome = false ∧
     SetValue.check_if_provided_a_valid_value ⟨exampleObj, "z", Value.int 5⟩ =
       Except.error (PyError.attributeError ("obj1") ("z"))) ∧
    ((HasProps.lookup exampleObj "x").isSome = true ∧
     ∃ r, SetValue.check_if_provided_a_valid_value ⟨exampleObj, "x", Value.int 5⟩ =
       Except.ok r) :=
  ⟨⟨rfl, (setvalue_check_value_totality ⟨exampleObj, "z", Value.int 5⟩).1 rfl⟩,
   ⟨rfl, (setvalue_check_value_totality ⟨exampleObj, "x", Value.int 5⟩).2 rfl⟩⟩

/-- C9: `SetValue` validation is pure and deterministic: a second validation
run on the state left by a first run over the same directive produces the
same list of errors (same kinds, count and payloads). -/
theorem setvalue_validation_deterministic (d : SetValue) :
    (SetValue.runValidation (d.runValidation).2).1 = (d.runValidation).1 := rfl

/-- C10: neither check mutates state: after running both checks the
directive's obj, attr and value fields and every stored property value of the
target are unchanged. -/
theorem setvalue_checks_do_not_mutate (d : SetValue) :
    ((d.runChecks).2.obj = d.obj ∧ (d.runChecks).2.attr = d.attr ∧
     (d.runChecks).2.value = d.value) ∧
    (∀ a, HasProps.getValue (d.runChecks).2.obj a = HasProps.getValue d.obj a) ∧
    (∀ a, HasProps.lookup (d.runChecks).2.obj a = HasProps.lookup d.obj a) :=
  ⟨⟨rfl, rfl, rfl⟩, fun _ => rfl, fun _ => rfl⟩

/-- C4: constructing a `CustomJS` with a missing or empty code payload fails
with `EmptyCode`, and any non-empty code string succeeds regardless of the
args contents, the empty mapping included. -/
theorem customjs_code_construction (code : String) (args : Option (List (String × AnyRef)))
    (m : Option ModuleMode) :
    CustomJS.construct_from none args m = Except.error ConstructionError.EmptyCode ∧
    CustomJS.construct_from (some "") args m = Except.error ConstructionError.EmptyCode ∧
    (code ≠ "" → ∃ js, CustomJS.construct_from (some code) args m = Except.ok js) := by
  refine ⟨rfl, rfl, fun h => ⟨⟨args.getD [], code, m.getD ModuleMode.auto⟩, ?_⟩⟩
  simp [CustomJS.construct_from, h]

/-- Witness for C4: a one-statement script with an empty args mapping. -/
theorem customjs_code_construction_witness :
    ("alert()" : String) ≠ "" ∧
    ∃ js, CustomJS.construct_from (some "alert()") (some []) none = Except.ok js :=
  ⟨by decide, (customjs_code_construction "alert()" (some []) none).2.2 (by decide)⟩

/-- C6: an `OpenURL` constructed with no arguments has url equal to the
default template string and same_tab equal to false. -/
theorem openurl_defaults :
    OpenURL.construct_noargs.url = "http://" ∧
    OpenURL.construct_noargs.same_tab = false :=
  ⟨rfl, rfl⟩

/-- C7: a `CustomJS` constructed without specifying args or module has the
empty mapping as args and the auto variant as module. -/
theorem customjs_defaults (code : String) (h : code ≠ "") :
    ∃ js, CustomJS.construct_from (some code) none none = Except.ok js ∧
      js.args = [] ∧ js.module = ModuleMode.auto := by
  refine ⟨⟨[], code, ModuleMode.auto⟩, ?_, rfl, rfl⟩
  simp [CustomJS.construct_from, h]

/-- Witness for C7: constructing from code alone. -/
theorem customjs_defaults_witness :
    ("return 1" : String) ≠ "" ∧
    ∃ js, CustomJS.construct_from (some "return 1") none none = Except.ok js ∧
      js.args = [] ∧ js.module = ModuleMode.auto :=
  ⟨by decide, customjs_defaults "return 1" (by decide)⟩

/-- C8: an `OpenURL` directive declares no model-level validation checks, so
the graph validation pass yields zero errors for any `OpenURL`. -/
theorem openurl_validates_with_no_errors (c : OpenURL) :
    Callback.validate (Callback.openURL c) = [] := rfl

end Bokeh
